import Mathlib

/-
Verification of the voice-capture session controller
(frontend/src/pages/Voice.tsx).

The controller is a single state machine: it owns the listening flag, the
displayed transcript, the last error message, the support flag, and the
accumulated final transcript (a mutable ref in the source).  The speech
capability delivers result, error and end notifications; the end
notification triggers at most one dispatch of the trimmed final transcript
to the network collaborator.  Every definition below is a direct
translation of the corresponding source fragment; definitions whose names
start with `claimed` are instead written from the specification's words,
for comparison against the source translation.
-/

namespace Voice

/-- One recognition result fragment: `result[0].transcript` and
`result.isFinal` in the source. -/
structure SpeechResult where
  transcript : String
  isFinal : Bool
deriving DecidableEq

/-- One capability notification: `event.resultIndex` and `event.results`. -/
structure RecognitionEvent where
  resultIndex : Nat
  results : List SpeechResult
deriving DecidableEq

/-- The controller state: React state `isListening`, `transcript`, `error`,
`isSupported` plus the ref `finalTranscriptRef.current`. -/
structure VoiceState where
  isListening : Bool
  transcript : String
  error : Option String
  isSupported : Bool
  finalTranscript : String
deriving DecidableEq

/-- Whitespace as tested by the trim operation (space, tab, newline,
carriage return cover every character occurring in this development). -/
def isTrimWhitespace (c : Char) : Bool := c.isWhitespace

/-- Strip leading and trailing whitespace from a character list. -/
def trimList (l : List Char) : List Char :=
  ((l.dropWhile isTrimWhitespace).reverse.dropWhile isTrimWhitespace).reverse

/-- Model of the platform string `trim()` used at lines 71 and 89 of the
source, written with structural recursion so it evaluates. -/
def strTrim (s : String) : String := ⟨trimList s.data⟩

/-- The loop body of `recognition.onresult` (lines 59-68): walk the
fragment list, appending final text to the final transcript and non-final
text to the event-local interim transcript. -/
def processResults (finalT interimT : String) : List SpeechResult → String × String
  | [] => (finalT, interimT)
  | r :: rest =>
    if r.isFinal then processResults (finalT ++ r.transcript) interimT rest
    else processResults finalT (interimT ++ r.transcript) rest

/-- `recognition.onresult` (lines 56-74): process the fragments from
`event.resultIndex` on, display `(final + interim).trim()`, clear the
error. -/
def onresult (s : VoiceState) (e : RecognitionEvent) : VoiceState :=
  let p := processResults s.finalTranscript "" (e.results.drop e.resultIndex)
  { s with finalTranscript := p.1
           transcript := strTrim (p.1 ++ p.2)
           error := none }

/-- The error-message selection of `recognition.onerror` (lines 77-82). -/
def recognitionErrorMessage (code : String) : String :=
  if code = "not-allowed" then
    "Microphone access denied. Please allow microphone permissions."
  else if code = "no-speech" then
    "No speech detected. Please try again."
  else
    "Speech recognition error: " ++ code

/-- `recognition.onerror` (lines 76-85): set the error message and stop
listening. -/
def onerror (s : VoiceState) (code : String) : VoiceState :=
  { s with error := some (recognitionErrorMessage code), isListening := false }

/-- `recognition.onend` (lines 87-93): stop listening and, when the trimmed
final transcript is non-empty, hand it to `sendTranscript`.  The second
component is the dispatched payload, if any. -/
def onend (s : VoiceState) : VoiceState × Option String :=
  let textToSend := strTrim s.finalTranscript
  ({ s with isListening := false },
   if textToSend = "" then none else some textToSend)

/-- Outcome of `recognitionRef.current.start()` inside the `try` of
`toggleListening`: success, a `DOMException` named `InvalidStateError`, or
any other throw. -/
inductive StartOutcome where
  | ok
  | invalidState
  | otherFailure
deriving DecidableEq

/-- Message set when `start()` throws `InvalidStateError` (line 127). -/
def alreadyRunningMessage : String :=
  "Speech recognition is already running. Please wait a moment and try again."

/-- Message set when `start()` throws anything else (line 128). -/
def startFailureMessage : String :=
  "Unable to start speech recognition. Please try again."

/-- Message set when `recognitionRef.current` is absent (line 108). -/
def notSupportedMessage : String :=
  "Speech recognition is not supported in this browser."

/-- Result of one `toggleListening` call: the new state, whether the
capability was asked to halt (`recognition.stop()`), and the dispatch
calls made directly by the toggle (the source never dispatches from the
toggle, so this list is always empty). -/
structure ToggleResult where
  state : VoiceState
  haltRequested : Bool
  dispatches : List String
deriving DecidableEq

/-- `toggleListening` (lines 106-132).  `hasRecognition` models whether
`recognitionRef.current` is non-null; `o` is the outcome of the
capability `start()` call.  Note the source clears `transcript`, `error`
and `finalTranscriptRef` before calling `start()`, so those writes survive
a thrown `start()`. -/
def toggleListening (hasRecognition : Bool) (s : VoiceState) (o : StartOutcome) :
    ToggleResult :=
  if !hasRecognition then
    ⟨{ s with error := some notSupportedMessage }, false, []⟩
  else if s.isListening then
    ⟨{ s with isListening := false }, true, []⟩
  else
    match o with
    | .ok =>
      ⟨{ s with transcript := "", error := none, finalTranscript := "",
                isListening := true }, false, []⟩
    | .invalidState =>
      ⟨{ s with transcript := "", finalTranscript := "",
                error := some alreadyRunningMessage,
                isListening := false }, false, []⟩
    | .otherFailure =>
      ⟨{ s with transcript := "", finalTranscript := "",
                error := some startFailureMessage,
                isListening := false }, false, []⟩

/-- What the `fetch` in `sendTranscript` resolves to: an HTTP response with
a status code, or a rejected promise carrying an exception message. -/
inductive FetchOutcome where
  | status (code : Nat)
  | transportError (message : String)
deriving DecidableEq

/-- The platform predicate `response.ok`: status in the range 200-299. -/
def responseOk (code : Nat) : Bool := 200 ≤ code && code ≤ 299

/-- The HTTP request issued by `sendTranscript` (lines 36-42). -/
structure HttpRequest where
  url : String
  method : String
  contentType : String
  body : String
deriving DecidableEq

/-- Lower-case hexadecimal digit, for the JSON control-character escape. -/
def jsonHexDigit (n : Nat) : String :=
  String.singleton (Char.ofNat (if n < 10 then 48 + n else 87 + (n - 10)))

/-- Escaping of one character by the platform `JSON.stringify`. -/
def jsonEscapeChar (c : Char) : String :=
  if c.toNat = 34 then "\\\""
  else if c.toNat = 92 then "\\\\"
  else if c.toNat = 8 then "\\b"
  else if c.toNat = 9 then "\\t"
  else if c.toNat = 10 then "\\n"
  else if c.toNat = 12 then "\\f"
  else if c.toNat = 13 then "\\r"
  else if c.toNat < 32 then
    "\\u00" ++ jsonHexDigit (c.toNat / 16) ++ jsonHexDigit (c.toNat % 16)
  else String.singleton c

/-- Escape every character of a list in order. -/
def jsonEscapeList : List Char → String
  | [] => ""
  | c :: rest => jsonEscapeChar c ++ jsonEscapeList rest

/-- The platform `JSON.stringify` on a string value. -/
def jsonStringify (s : String) : String :=
  "\"" ++ jsonEscapeList s.data ++ "\""

/-- The body `JSON.stringify({ input: text })` at line 41. -/
def queryBody (text : String) : String :=
  "\x7b\"input\":" ++ jsonStringify text ++ "\x7d"

/-- The request built by `sendTranscript` (lines 36-42): `POST` to the
fixed endpoint `/query` with a JSON body carrying the text. -/
def sendTranscriptRequest (text : String) : HttpRequest :=
  ⟨"http://localhost:8000/query", "POST", "application/json", queryBody text⟩

/-- The error handling of `sendTranscript` (lines 44-53): a non-2xx
response throws `Request failed with status N`, and any thrown value is
turned into a `Failed to send transcript: ...` message; a 2xx response
produces no error. -/
def sendTranscriptError (o : FetchOutcome) : Option String :=
  match o with
  | .status c =>
    if responseOk c then none
    else some ("Failed to send transcript: Request failed with status " ++
               toString c)
  | .transportError m => some ("Failed to send transcript: " ++ m)

/-- Effect on the controller state of the dispatch promise resolving:
`sendTranscript`'s `catch` calls `setError` on failure and does nothing on
success (lines 47-53).  This runs against whatever state the controller is
in when the promise settles. -/
def applyDispatchOutcome (s : VoiceState) (o : FetchOutcome) : VoiceState :=
  match sendTranscriptError o with
  | none => s
  | some m => { s with error := some m }

/-- A capability notification delivered to the controller while a session
is active. -/
inductive CapEvent where
  | result (e : RecognitionEvent)
  | errored (code : String)
  | ended
deriving DecidableEq

/-- One capability notification step; the second component lists the
dispatch calls it makes (only the end notification ever dispatches). -/
def capStep (s : VoiceState) : CapEvent → VoiceState × List String
  | .result e => (onresult s e, [])
  | .errored code => (onerror s code, [])
  | .ended =>
    let p := onend s
    (p.1, p.2.toList)

/-- Run a list of capability notifications, collecting all dispatches. -/
def runCap (s : VoiceState) : List CapEvent → VoiceState × List String
  | [] => (s, [])
  | ev :: rest =>
    let p := capStep s ev
    let q := runCap p.1 rest
    (q.1, p.2 ++ q.2)

/-- Run a list of result events only (no error or end notification). -/
def runResults (s : VoiceState) : List RecognitionEvent → VoiceState
  | [] => s
  | e :: rest => runResults (onresult s e) rest

/-- Concatenation of the final fragments of a fragment list, in order. -/
def finalsText : List SpeechResult → String
  | [] => ""
  | r :: rest => (if r.isFinal then r.transcript else "") ++ finalsText rest

/-- Concatenation of the non-final fragments of a fragment list, in
order. -/
def interimText : List SpeechResult → String
  | [] => ""
  | r :: rest => (if r.isFinal then "" else r.transcript) ++ interimText rest

/-- The fragment slice an event asks the controller to process: the
results from the stated resume index on. -/
def eventSlice (e : RecognitionEvent) : List SpeechResult :=
  e.results.drop e.resultIndex

/-- Concatenation, over a sequence of events, of the final fragments of
each event's processed slice, in arrival order. -/
def sessionFinals : List RecognitionEvent → String
  | [] => ""
  | e :: rest => finalsText (eventSlice e) ++ sessionFinals rest

/-- Interim transcript as the specification words it: each non-final
fragment overwrites the interim transcript (claimed behaviour, written
from the spec for comparison with the source translation). -/
def claimedOverwriteInterim (interimT : String) : List SpeechResult → String
  | [] => interimT
  | r :: rest =>
    claimedOverwriteInterim (if r.isFinal then interimT else r.transcript) rest

/-- The claimed interim transcript after a sequence of events, under the
specification's overwrite-per-fragment reading. -/
def claimedInterim (interimT : String) : List RecognitionEvent → String
  | [] => interimT
  | e :: rest => claimedInterim (claimedOverwriteInterim interimT (eventSlice e)) rest

/-- The displayed transcript as the specification claims it: trim of all
final fragments in arrival order followed by the most-recent interim
fragment. -/
def claimedDisplay (es : List RecognitionEvent) : String :=
  strTrim (sessionFinals es ++ claimedInterim "" es)

/-- The controller state at the start of a fresh listening session
(the state produced by a successful `toggleListening` start in a
supported browser). -/
def startedState : VoiceState :=
  ⟨true, "", none, true, ""⟩

/-- A state holding a displayed transcript from a finished session. -/
def endedSample : VoiceState :=
  ⟨false, "hello", none, true, "hello"⟩

/-- A freshly mounted unsupported-browser state: no recognition handle,
no error shown yet. -/
def unsupportedSample : VoiceState :=
  ⟨false, "", none, false, ""⟩

/-- The spec's classified error type. -/
inductive ErrorInfo where
  | PermissionDenied
  | NoSpeechDetected
  | AlreadyRunning
  | Unsupported
  | RecognitionFailure (code : String)
  | DispatchFailure (message : String)
deriving DecidableEq

/-- The spec's classification of a raw capability error code. -/
def classifyRecognitionError (code : String) : ErrorInfo :=
  if code = "not-allowed" then .PermissionDenied
  else if code = "no-speech" then .NoSpeechDetected
  else .RecognitionFailure code

/-- The user-visible message for each classified error, read off the
source's message strings. -/
def renderErrorInfo : ErrorInfo → String
  | .PermissionDenied =>
    "Microphone access denied. Please allow microphone permissions."
  | .NoSpeechDetected => "No speech detected. Please try again."
  | .AlreadyRunning => alreadyRunningMessage
  | .Unsupported => notSupportedMessage
  | .RecognitionFailure code => "Speech recognition error: " ++ code
  | .DispatchFailure m => "Failed to send transcript: " ++ m


/-- Event used to refute claim C1: one notification carrying two
non-final fragments. -/
def twoInterimEvent : RecognitionEvent :=
  ⟨0, [⟨"a", false⟩, ⟨"b", false⟩]⟩

/-- A character `JSON.stringify` copies verbatim: printable, not the
quote, not the backslash. -/
def plainJsonChar (c : Char) : Bool :=
  (32 ≤ c.toNat && c.toNat ≠ 34) && c.toNat ≠ 92

/-- A string `JSON.stringify` copies verbatim between its quotes. -/
def plainString (s : String) : Bool := s.data.all plainJsonChar

/-- Fragments before the resume index in the C6 witness. -/
def preSample : List SpeechResult := [⟨"x", true⟩]

/-- Fragments from the resume index on in the C6 witness. -/
def postSample : List SpeechResult := [⟨"y", true⟩]

/-! Helper lemmas about strings and the controller operations. -/

theorem str_empty_append (s : String) : "" ++ s = s := rfl

theorem str_append_empty (s : String) : s ++ "" = s := by
  cases s with
  | mk data => exact congrArg String.mk (List.append_nil data)

theorem str_append_assoc (a b c : String) : a ++ b ++ c = a ++ (b ++ c) := by
  cases a with
  | mk da =>
    cases b with
    | mk db =>
      cases c with
      | mk dc => exact congrArg String.mk (List.append_assoc da db dc)

theorem processResults_eq (l : List SpeechResult) (finalT interimT : String) :
    processResults finalT interimT l =
      (finalT ++ finalsText l, interimT ++ interimText l) := by
  induction l generalizing finalT interimT with
  | nil => simp [processResults, finalsText, interimText, str_append_empty]
  | cons r rest ih =>
    by_cases hf : r.isFinal <;>
      simp [processResults, finalsText, interimText, hf, ih, str_append_assoc]

theorem onresult_spec (s : VoiceState) (e : RecognitionEvent) :
    onresult s e =
      { s with
        finalTranscript := s.finalTranscript ++ finalsText (eventSlice e)
        transcript := strTrim (s.finalTranscript ++ finalsText (eventSlice e) ++
          interimText (eventSlice e))
        error := none } := by
  simp [onresult, processResults_eq, eventSlice, str_empty_append]

theorem runResults_append (s : VoiceState) (xs ys : List RecognitionEvent) :
    runResults s (xs ++ ys) = runResults (runResults s xs) ys := by
  induction xs generalizing s with
  | nil => rfl
  | cons e rest ih => simp [runResults, ih]

theorem runResults_final (s : VoiceState) (es : List RecognitionEvent) :
    (runResults s es).finalTranscript = s.finalTranscript ++ sessionFinals es := by
  induction es generalizing s with
  | nil => simp [runResults, sessionFinals, str_append_empty]
  | cons e rest ih =>
    simp [runResults, sessionFinals, ih, onresult_spec, str_append_assoc]

theorem sessionFinals_append (xs ys : List RecognitionEvent) :
    sessionFinals (xs ++ ys) = sessionFinals xs ++ sessionFinals ys := by
  induction xs with
  | nil => simp [sessionFinals, str_empty_append]
  | cons e rest ih => simp [sessionFinals, ih, str_append_assoc]

theorem sessionFinals_singleton (e : RecognitionEvent) :
    sessionFinals [e] = finalsText (eventSlice e) := by
  simp [sessionFinals, str_append_empty]

theorem runCap_append (s : VoiceState) (xs ys : List CapEvent) :
    runCap s (xs ++ ys) =
      ((runCap (runCap s xs).1 ys).1,
       (runCap s xs).2 ++ (runCap (runCap s xs).1 ys).2) := by
  induction xs generalizing s with
  | nil => simp [runCap]
  | cons ev rest ih => simp [runCap, ih, List.append_assoc]

theorem runCap_no_ended (s : VoiceState) (evs : List CapEvent)
    (h : CapEvent.ended ∉ evs) : (runCap s evs).2 = [] := by
  induction evs generalizing s with
  | nil => rfl
  | cons ev rest ih =>
    have hev : ev ≠ CapEvent.ended := fun he => h (he ▸ List.mem_cons_self _ _)
    have hrest : CapEvent.ended ∉ rest := fun hm => h (List.mem_cons_of_mem _ hm)
    cases ev with
    | result e => simp [runCap, capStep, ih _ hrest]
    | errored c => simp [runCap, capStep, ih _ hrest]
    | ended => exact absurd rfl hev

theorem capStep_final (s : VoiceState) (ev : CapEvent) :
    ∃ a, (capStep s ev).1.finalTranscript = s.finalTranscript ++ a := by
  cases ev with
  | result e => exact ⟨finalsText (eventSlice e), by simp [capStep, onresult_spec]⟩
  | errored c => exact ⟨"", by simp [capStep, onerror, str_append_empty]⟩
  | ended => exact ⟨"", by simp [capStep, onend, str_append_empty]⟩

theorem runCap_final_extends (s : VoiceState) (evs : List CapEvent) :
    ∃ t, (runCap s evs).1.finalTranscript = s.finalTranscript ++ t := by
  induction evs generalizing s with
  | nil => exact ⟨"", (str_append_empty _).symm⟩
  | cons ev rest ih =>
    obtain ⟨a, ha⟩ := capStep_final s ev
    obtain ⟨b, hb⟩ := ih (capStep s ev).1
    refine ⟨a ++ b, ?_⟩
    show (runCap (capStep s ev).1 rest).1.finalTranscript = _
    rw [hb, ha, str_append_assoc]

theorem recognitionErrorMessage_eq (code : String) :
    recognitionErrorMessage code = renderErrorInfo (classifyRecognitionError code) := by
  by_cases h1 : code = "not-allowed"
  · simp [recognitionErrorMessage, classifyRecognitionError, renderErrorInfo, h1]
  · by_cases h2 : code = "no-speech" <;>
      simp [recognitionErrorMessage, classifyRecognitionError, renderErrorInfo, h1, h2]

theorem applyDispatch_isListening (s : VoiceState) (o : FetchOutcome) :
    (applyDispatchOutcome s o).isListening = s.isListening := by
  cases ho : sendTranscriptError o <;> simp [applyDispatchOutcome, ho]

theorem applyDispatch_transcript (s : VoiceState) (o : FetchOutcome) :
    (applyDispatchOutcome s o).transcript = s.transcript := by
  cases ho : sendTranscriptError o <;> simp [applyDispatchOutcome, ho]

theorem applyDispatch_finalTranscript (s : VoiceState) (o : FetchOutcome) :
    (applyDispatchOutcome s o).finalTranscript = s.finalTranscript := by
  cases ho : sendTranscriptError o <;> simp [applyDispatchOutcome, ho]

theorem applyDispatch_isSupported (s : VoiceState) (o : FetchOutcome) :
    (applyDispatchOutcome s o).isSupported = s.isSupported := by
  cases ho : sendTranscriptError o <;> simp [applyDispatchOutcome, ho]

theorem responseOk_iff (c : Nat) : responseOk c = true ↔ (200 ≤ c ∧ c ≤ 299) := by
  simp [responseOk]

/-! Claim theorems. -/

/-- C1, counterexample: on an event with two non-final fragments the source
concatenates them into the interim transcript, so the displayed transcript
("ab") differs from the claimed trim(finals + most-recent interim fragment)
("b"). -/
theorem C1_display_counterexample :
    (runResults startedState [twoInterimEvent]).transcript ≠
      claimedDisplay [twoInterimEvent] := by decide

/-- C1, amended: for every sequence of recognition events processed from a
fresh listening session, the displayed transcript equals the trim of the
concatenation of all final fragments in arrival order followed by the
concatenation of the non-final fragments of the most recent event; the
interim transcript is rebuilt from scratch at each event, and non-final
fragments within one event are appended to it, not overwritten by each
other. -/
theorem C1_display_amended (es : List RecognitionEvent) (e : RecognitionEvent) :
    (runResults startedState (es ++ [e])).transcript =
      strTrim (sessionFinals (es ++ [e]) ++ interimText (eventSlice e)) := by
  rw [runResults_append]
  show (onresult (runResults startedState es) e).transcript = _
  rw [onresult_spec]
  show strTrim ((runResults startedState es).finalTranscript ++
    finalsText (eventSlice e) ++ interimText (eventSlice e)) = _
  rw [runResults_final, sessionFinals_append, sessionFinals_singleton]
  rfl

/-- C2: at the capability's end notification, dispatch to the network
collaborator occurs at most once per session, and occurs exactly when the
trimmed final transcript is non-empty (carrying that trimmed text); an
empty trimmed transcript is never sent. -/
theorem C2_dispatch_iff (s : VoiceState) (evs : List CapEvent)
    (h : CapEvent.ended ∉ evs) :
    ((runCap s (evs ++ [CapEvent.ended])).2 =
       if strTrim (runCap s evs).1.finalTranscript = "" then []
       else [strTrim (runCap s evs).1.finalTranscript]) ∧
    (runCap s (evs ++ [CapEvent.ended])).2.length ≤ 1 := by
  have hd := runCap_no_ended s evs h
  rw [runCap_append, hd]
  by_cases he : strTrim (runCap s evs).1.finalTranscript = "" <;>
    simp [runCap, capStep, onend, he]

/-- C2, witness: a session that finalized "hello" dispatches it exactly
once at the end notification. -/
theorem C2_dispatch_iff_witness :
    ((runCap endedSample ([] ++ [CapEvent.ended])).2 =
       if strTrim (runCap endedSample []).1.finalTranscript = "" then []
       else [strTrim (runCap endedSample []).1.finalTranscript]) ∧
    (runCap endedSample ([] ++ [CapEvent.ended])).2.length ≤ 1 :=
  C2_dispatch_iff endedSample [] (by simp)

/-- C3, counterexample: the source clears the transcript buffers before
calling the capability's start, so when start fails with the invalid-state
condition the previously displayed transcript "hello" is gone, contrary to
the claim that the buffers are not cleared. -/
theorem C3_buffers_cleared_counterexample :
    (toggleListening true endedSample .invalidState).state.transcript ≠
      endedSample.transcript := by decide

/-- C3, amended: if start fails because the capability is already active,
the controller reports the already-running error and is left not
listening, but the transcript buffers were already cleared before the
start attempt, so the prior session's displayed transcript is lost. -/
theorem C3_already_running_amended (s : VoiceState) (h : s.isListening = false) :
    toggleListening true s .invalidState =
      ⟨{ s with
         transcript := "",
         finalTranscript := "",
         error := some alreadyRunningMessage,
         isListening := false },
       false, []⟩ := by
  simp [toggleListening, h]

/-- C3, witness: the amended behaviour at a state holding a prior
session's transcript. -/
theorem C3_already_running_witness :
    toggleListening true endedSample .invalidState =
      ⟨{ endedSample with
         transcript := "",
         finalTranscript := "",
         error := some alreadyRunningMessage,
         isListening := false },
       false, []⟩ :=
  C3_already_running_amended endedSample rfl

/-- C4: a successful start clears the final transcript, the displayed
(interim) transcript and the last error before any event of the new
session is processed; and thereafter the final transcript only grows
(every run of capability notifications extends it on the right, never
truncates it). -/
theorem C4_reset_and_growth :
    (∀ s : VoiceState, s.isListening = false →
      (toggleListening true s .ok).state.finalTranscript = "" ∧
      (toggleListening true s .ok).state.transcript = "" ∧
      (toggleListening true s .ok).state.error = none ∧
      (toggleListening true s .ok).state.isListening = true) ∧
    (∀ (s : VoiceState) (evs : List CapEvent),
      ∃ t, (runCap s evs).1.finalTranscript = s.finalTranscript ++ t) := by
  constructor
  · intro s h
    simp [toggleListening, h]
  · intro s evs
    exact runCap_final_extends s evs

/-- C4, witness: starting over a state holding a prior transcript resets
the final transcript. -/
theorem C4_reset_and_growth_witness :
    (toggleListening true endedSample .ok).state.finalTranscript = "" :=
  (C4_reset_and_growth.1 endedSample rfl).1

/-- C5: a recognition error maps not-allowed to PermissionDenied,
no-speech to NoSpeechDetected and any other code to
RecognitionFailure(code); the handler stores exactly the rendered message
of that classification and leaves the listening flag off, with no resume
(the transcript buffers are untouched and no restart happens). -/
theorem C5_error_mapping (s : VoiceState) (code : String) :
    onerror s code =
      { s with error := some (renderErrorInfo (classifyRecognitionError code)),
               isListening := false } ∧
    classifyRecognitionError "not-allowed" = ErrorInfo.PermissionDenied ∧
    classifyRecognitionError "no-speech" = ErrorInfo.NoSpeechDetected ∧
    (code ≠ "not-allowed" → code ≠ "no-speech" →
      classifyRecognitionError code = ErrorInfo.RecognitionFailure code) := by
  refine ⟨?_, by decide, by decide, fun h1 h2 => ?_⟩
  · simp [onerror, recognitionErrorMessage_eq]
  · simp [classifyRecognitionError, h1, h2]

/-- C5, witness: an unlisted code is classified as a recognition
failure carrying the code. -/
theorem C5_error_mapping_witness :
    classifyRecognitionError "audio-capture" =
      ErrorInfo.RecognitionFailure "audio-capture" :=
  (C5_error_mapping endedSample "audio-capture").2.2.2 (by decide) (by decide)

theorem jsonEscapeChar_plain (c : Char) (h : plainJsonChar c = true) :
    jsonEscapeChar c = String.singleton c := by
  have h' : 32 ≤ c.toNat ∧ c.toNat ≠ 34 ∧ c.toNat ≠ 92 := by
    simpa [plainJsonChar, and_assoc] using h
  obtain ⟨h1, h2, h3⟩ := h'
  simp only [jsonEscapeChar]
  rw [if_neg h2, if_neg h3, if_neg (by omega), if_neg (by omega),
      if_neg (by omega), if_neg (by omega), if_neg (by omega),
      if_neg (by omega)]

theorem jsonEscapeList_plain (l : List Char) (h : ∀ c ∈ l, plainJsonChar c = true) :
    jsonEscapeList l = String.mk l := by
  induction l with
  | nil => rfl
  | cons c rest ih =>
    show jsonEscapeChar c ++ jsonEscapeList rest = _
    rw [jsonEscapeChar_plain c (h c (by simp)),
        ih (fun d hd => h d (by simp [hd]))]
    rfl

theorem queryBody_plain (text : String) (h : plainString text = true) :
    queryBody text = "\x7b\"input\":\"" ++ text ++ "\"\x7d" := by
  have he : jsonEscapeList text.data = text := by
    rw [jsonEscapeList_plain text.data (by simpa [plainString, List.all_eq_true] using h)]
  have hAQ : ("\x7b\"input\":" : String) ++ "\"" = "\x7b\"input\":\"" := by decide
  have hQZ : ("\"" : String) ++ "\x7d" = "\"\x7d" := by decide
  show "\x7b\"input\":" ++ ("\"" ++ jsonEscapeList text.data ++ "\"") ++ "\x7d" = _
  rw [he, ← hAQ, ← hQZ]
  simp only [str_append_assoc]

/-- C6: only the fragments at or after the event's stated resume index are
processed, and in index order: the fragments before the resume index do
not influence the handler at all (the event behaves exactly like one whose
list starts at the resume index), and the final transcript is extended by
precisely the final fragments of that slice, in order. -/
theorem C6_resume_index (s : VoiceState) (rIdx : Nat)
    (pre post : List SpeechResult) (h : pre.length = rIdx) :
    onresult s ⟨rIdx, pre ++ post⟩ = onresult s ⟨0, post⟩ ∧
    (onresult s ⟨rIdx, pre ++ post⟩).finalTranscript =
      s.finalTranscript ++ finalsText post := by
  have hdrop : (pre ++ post).drop rIdx = post := by
    rw [← h]; exact List.drop_left pre post
  constructor
  · simp [onresult, hdrop]
  · simp [onresult_spec, eventSlice, hdrop]

/-- C6, witness: an already-finalized fragment "x" before the resume index
is not re-appended; only "y" from the resume index on is. -/
theorem C6_resume_index_witness :
    onresult endedSample ⟨1, preSample ++ postSample⟩ =
      onresult endedSample ⟨0, postSample⟩ ∧
    (onresult endedSample ⟨1, preSample ++ postSample⟩).finalTranscript =
      endedSample.finalTranscript ++ finalsText postSample :=
  C6_resume_index endedSample 1 preSample postSample (by decide)

/-- C7, counterexample: a dispatch failure that resolves after a new
session has started does affect the new session's state: the shared error
is set to the dispatch-failure message, so the new session's lastError is
not independent of the pending dispatch's outcome as claimed. -/
theorem C7_pending_dispatch_counterexample :
    (applyDispatchOutcome startedState (FetchOutcome.status 500)).error ≠
      startedState.error := by decide

/-- C7, amended: a new start before dispatch resolves begins a fresh
session whose transcript buffers, listening flag and support flag are
untouched by the pending dispatch resolving; a successful dispatch changes
nothing, but a dispatch failure sets the shared error to its failure
message, which the new session then displays. -/
theorem C7_pending_dispatch_amended (s : VoiceState) (o : FetchOutcome) :
    ((applyDispatchOutcome s o).isListening = s.isListening ∧
     (applyDispatchOutcome s o).transcript = s.transcript ∧
     (applyDispatchOutcome s o).finalTranscript = s.finalTranscript ∧
     (applyDispatchOutcome s o).isSupported = s.isSupported) ∧
    (sendTranscriptError o = none → applyDispatchOutcome s o = s) ∧
    (∀ m, sendTranscriptError o = some m →
      (applyDispatchOutcome s o).error = some m) := by
  refine ⟨⟨applyDispatch_isListening s o, applyDispatch_transcript s o,
      applyDispatch_finalTranscript s o, applyDispatch_isSupported s o⟩, ?_, ?_⟩
  · intro ho; simp [applyDispatchOutcome, ho]
  · intro m ho; simp [applyDispatchOutcome, ho]

/-- C7, witness: a transport failure resolving against the fresh session
state leaves its buffers alone but installs the failure message. -/
theorem C7_pending_dispatch_witness :
    (applyDispatchOutcome startedState
        (FetchOutcome.transportError "boom")).error =
      some "Failed to send transcript: boom" :=
  (C7_pending_dispatch_amended startedState
      (FetchOutcome.transportError "boom")).2.2
    "Failed to send transcript: boom" (by decide)

/-- C8: dispatch is a POST to the fixed endpoint /query with the JSON body
made of the field "input" holding the text (shown verbatim for texts that
JSON copies unescaped); any 2xx status and nothing else is success; a
non-2xx status or a transport failure yields the dispatch-failure message
carrying the status or exception text; and after such a failure the
controller is still not listening and a new start succeeds (it begins
listening and requests no halt, so capture is not re-triggered by the
failure itself). -/
theorem C8_dispatch_request (text : String) (c : Nat) (m : String)
    (s : VoiceState) :
    sendTranscriptRequest text =
      ⟨"http://localhost:8000/query", "POST", "application/json",
       queryBody text⟩ ∧
    (plainString text = true →
      queryBody text = "\x7b\"input\":\"" ++ text ++ "\"\x7d") ∧
    (sendTranscriptError (FetchOutcome.status c) = none ↔
      200 ≤ c ∧ c ≤ 299) ∧
    sendTranscriptError (FetchOutcome.transportError m) =
      some ("Failed to send transcript: " ++ m) ∧
    (¬(200 ≤ c ∧ c ≤ 299) →
      sendTranscriptError (FetchOutcome.status c) =
        some ("Failed to send transcript: Request failed with status " ++
          toString c)) ∧
    (s.isListening = false →
      (applyDispatchOutcome s (FetchOutcome.status c)).isListening = false ∧
      (toggleListening true (applyDispatchOutcome s (FetchOutcome.status c))
          .ok).state.isListening = true ∧
      (toggleListening true (applyDispatchOutcome s (FetchOutcome.status c))
          .ok).haltRequested = false) := by
  refine ⟨rfl, fun hp => queryBody_plain text hp, ?_, rfl, ?_, ?_⟩
  · constructor
    · intro hn
      by_contra hc
      have : sendTranscriptError (FetchOutcome.status c) ≠ none := by
        have hok : responseOk c = false := by
          cases hr : responseOk c
          · rfl
          · exact absurd ((responseOk_iff c).mp hr) hc
        simp [sendTranscriptError, hok]
      exact this hn
    · intro hc
      have hok : responseOk c = true := (responseOk_iff c).mpr hc
      simp [sendTranscriptError, hok]
  · intro hc
    have hok : responseOk c = false := by
      cases hr : responseOk c
      · rfl
      · exact absurd ((responseOk_iff c).mp hr) hc
    simp [sendTranscriptError, hok]
  · intro h
    have hl : (applyDispatchOutcome s (FetchOutcome.status c)).isListening = false := by
      rw [applyDispatch_isListening]; exact h
    exact ⟨hl, by simp [toggleListening, hl], by simp [toggleListening, hl]⟩

/-- C8, witness: a plain text body shown verbatim, a 500 response turned
into the dispatch-failure message, and a successful restart afterwards. -/
theorem C8_dispatch_request_witness :
    queryBody "hello world" = "\x7b\"input\":\"" ++ "hello world" ++ "\"\x7d" ∧
    sendTranscriptError (FetchOutcome.status 500) =
      some ("Failed to send transcript: Request failed with status " ++
        toString 500) ∧
    (toggleListening true
        (applyDispatchOutcome endedSample (FetchOutcome.status 500))
        .ok).state.isListening = true :=
  ⟨(C8_dispatch_request "hello world" 500 "x" endedSample).2.1 (by decide),
   (C8_dispatch_request "hello world" 500 "x" endedSample).2.2.2.2.1 (by decide),
   ((C8_dispatch_request "hello world" 500 "x" endedSample).2.2.2.2.2 rfl).2.1⟩

/-- C9, counterexample: the controller exposes only a toggle; invoking it
while Unsupported is not a no-op, since it sets the error to the
not-supported message, changing the state. -/
theorem C9_stop_noop_counterexample :
    (toggleListening false unsupportedSample .ok).state ≠ unsupportedSample := by
  decide

/-- C9, amended: a stop is only ever requested while Listening.  While
Unsupported, the toggle performs no dispatch and requests no capability
halt, and changes nothing except setting the error to the not-supported
message; while Idle, the toggle is a start request, not a stop: it never
requests a halt and never dispatches. -/
theorem C9_stop_noop_amended (s : VoiceState) (o : StartOutcome) :
    toggleListening false s o =
      ⟨{ s with error := some notSupportedMessage }, false, []⟩ ∧
    (toggleListening true s o).dispatches = [] ∧
    (s.isListening = false → (toggleListening true s o).haltRequested = false) := by
  refine ⟨by simp [toggleListening], ?_, ?_⟩
  · by_cases h : s.isListening <;> cases o <;> simp [toggleListening, h]
  · intro h; cases o <;> simp [toggleListening, h]

/-- C9, witness: a toggle from a non-listening state requests no halt. -/
theorem C9_stop_noop_witness :
    (toggleListening true endedSample .ok).haltRequested = false :=
  (C9_stop_noop_amended endedSample .ok).2.2 rfl

/-- C10: when a recognition error ends the session after some text was
finalized, the subsequent end notification still dispatches the trimmed
final transcript exactly once, and the recognition error message is still
the one on display: the error does not suppress dispatch of text finalized
before it. -/
theorem C10_error_then_end_dispatch (s : VoiceState) (code : String)
    (h : strTrim s.finalTranscript ≠ "") :
    (runCap s [CapEvent.errored code, CapEvent.ended]).2 =
      [strTrim s.finalTranscript] ∧
    (runCap s [CapEvent.errored code, CapEvent.ended]).1.error =
      some (recognitionErrorMessage code) := by
  simp [runCap, capStep, onerror, onend, h]

/-- C10, witness: a session that finalized "hello" and then hits a
recognition error still dispatches "hello" at the end notification. -/
theorem C10_error_then_end_witness :
    (runCap endedSample [CapEvent.errored "network", CapEvent.ended]).2 =
      [strTrim endedSample.finalTranscript] ∧
    (runCap endedSample [CapEvent.errored "network", CapEvent.ended]).1.error =
      some (recognitionErrorMessage "network") :=
  C10_error_then_end_dispatch endedSample "network" (by decide)

end Voice
